import Mathlib

/-!
Verification of the data-driven section rendering and navigation generation of
the portfolio template (DataLoader in js/animations.js, consumed by js/main.js).

The document fetched at startup is a JSON value; field access, truthiness,
string conversion and the length comparison follow the JavaScript semantics the
source relies on.  Modelling notes:
* JSON numbers are modelled as integers (no claim involves fractional values).
* ToNumber on strings is modelled for decimal integer strings; other strings
  are NaN.  ToPrimitive on arrays and objects in a numeric comparison is
  modelled as NaN.  These cases are outside every value shape the claims or
  the repository data touch.
* Top-level documents are association lists with distinct keys, as produced by
  parsing a JSON object.
-/

namespace Portfolio

/-- A JavaScript value as it can appear after `await response.json()`, plus
`undef` for the result of accessing an absent property. -/
inductive JSVal where
  | undef
  | null
  | bool (b : Bool)
  | num (n : Int)
  | str (s : String)
  | arr (xs : List JSVal)
  | obj (fields : List (String × JSVal))

/-- The parsed `data.json` document: a JSON object given by its fields. -/
def PortfolioDocument := List (String × JSVal)

/-- Top-level field access `this.data.<key>`: absent fields read as undefined. -/
def getField (d : PortfolioDocument) (k : String) : JSVal :=
  match d.lookup k with
  | some v => v
  | none => JSVal.undef

/-- Property access `v.<key>` on a value that is known not to be null or
undefined (guarded in the source): objects yield the field or undefined,
primitives and arrays yield undefined for the properties the source reads. -/
def jsGet (v : JSVal) (k : String) : JSVal :=
  match v with
  | JSVal.obj fs =>
      match fs.lookup k with
      | some w => w
      | none => JSVal.undef
  | _ => JSVal.undef

/-- Property access `v.<key>` where `v` may be null or undefined, in which
case JavaScript throws a TypeError. -/
def jsGetE (v : JSVal) (k : String) : Except String JSVal :=
  match v with
  | JSVal.undef => Except.error "TypeError: cannot read properties of undefined"
  | JSVal.null => Except.error "TypeError: cannot read properties of null"
  | JSVal.obj fs =>
      match fs.lookup k with
      | some w => Except.ok w
      | none => Except.ok JSVal.undef
  | _ => Except.ok JSVal.undef

/-- JavaScript truthiness. -/
def truthy (v : JSVal) : Bool :=
  match v with
  | JSVal.undef => false
  | JSVal.null => false
  | JSVal.bool b => b
  | JSVal.num n => n != 0
  | JSVal.str s => s != ""
  | JSVal.arr _ => true
  | JSVal.obj _ => true

/-- `DataLoader.hasValidData`: `data !== null && data !== undefined && data !== ''`. -/
def hasValidData (v : JSVal) : Bool :=
  match v with
  | JSVal.null => false
  | JSVal.undef => false
  | JSVal.str s => s != ""
  | _ => true

/-- The value of `v.length`: arrays and strings expose their length, objects
expose their `length` field if any, other values yield undefined. -/
def jsLength (v : JSVal) : JSVal :=
  match v with
  | JSVal.arr xs => JSVal.num xs.length
  | JSVal.str s => JSVal.num s.length
  | JSVal.obj fs =>
      match fs.lookup "length" with
      | some w => w
      | none => JSVal.undef
  | _ => JSVal.undef

/-- ToNumber for a string, restricted to decimal integer literals; the empty
string converts to 0 and anything unparsable to NaN (`none`). -/
def jsStrToNumber (s : String) : Option Int :=
  if s = "" then some 0 else s.toInt?

/-- ToNumber, with `none` standing for NaN. -/
def jsToNumber (v : JSVal) : Option Int :=
  match v with
  | JSVal.undef => none
  | JSVal.null => some 0
  | JSVal.bool b => some (if b then 1 else 0)
  | JSVal.num n => some n
  | JSVal.str s => jsStrToNumber s
  | JSVal.arr _ => none
  | JSVal.obj _ => none

/-- The comparison `v > 0` as evaluated by JavaScript on the result of a
`.length` read; comparisons involving NaN are false. -/
def jsGtZero (v : JSVal) : Bool :=
  match jsToNumber v with
  | some n => decide (0 < n)
  | none => false

/-- The six section identifiers known to the page layout. -/
inductive Section where
  | hero
  | about
  | experience
  | projects
  | contact
  | footer
deriving DecidableEq, Repr

/-- The fixed canonical rendering order of the six sections. -/
def canonicalSections : List Section :=
  [Section.hero, Section.about, Section.experience, Section.projects,
   Section.contact, Section.footer]

/-- `DataLoader.processData`: build `this.sections` by appending each section
identifier whose data passes its availability test, in the fixed source
order hero, about, experience, projects, contact, footer. -/
def processData (d : PortfolioDocument) : List Section :=
  (if hasValidData (getField d "personal") then [Section.hero] else []) ++
  (if hasValidData (getField d "about") then [Section.about] else []) ++
  (if hasValidData (getField d "experience") &&
      jsGtZero (jsLength (getField d "experience")) then [Section.experience] else []) ++
  (if hasValidData (getField d "projects") &&
      jsGtZero (jsLength (getField d "projects")) then [Section.projects] else []) ++
  (if hasValidData (getField d "contact") then [Section.contact] else []) ++
  (if hasValidData (getField d "personal") then [Section.footer] else [])

/-- The per-identifier eligibility test of the resolver, as one function. -/
def eligibleSection (d : PortfolioDocument) (c : Section) : Bool :=
  match c with
  | Section.hero => hasValidData (getField d "personal")
  | Section.about => hasValidData (getField d "about")
  | Section.experience =>
      hasValidData (getField d "experience") &&
      jsGtZero (jsLength (getField d "experience"))
  | Section.projects =>
      hasValidData (getField d "projects") &&
      jsGtZero (jsLength (getField d "projects"))
  | Section.contact => hasValidData (getField d "contact")
  | Section.footer => hasValidData (getField d "personal")

/-! ### String conversion and array iteration -/

mutual

/-- Implicit ToString as performed by template literal interpolation. -/
def jsToString : JSVal → String
  | JSVal.undef => "undefined"
  | JSVal.null => "null"
  | JSVal.bool b => if b then "true" else "false"
  | JSVal.num n => toString n
  | JSVal.str s => s
  | JSVal.arr xs => jsToStringList xs
  | JSVal.obj _ => "[object Object]"

/-- Array elements joined by commas; null and undefined elements print empty. -/
def jsToStringList : List JSVal → String
  | [] => ""
  | [x] => jsToStringElem x
  | x :: y :: xs => jsToStringElem x ++ "," ++ jsToStringList (y :: xs)

/-- One array element inside Array.prototype.toString. -/
def jsToStringElem : JSVal → String
  | JSVal.undef => ""
  | JSVal.null => ""
  | JSVal.bool b => if b then "true" else "false"
  | JSVal.num n => toString n
  | JSVal.str s => s
  | JSVal.arr xs => jsToStringList xs
  | JSVal.obj _ => "[object Object]"

end

/-- `v.map(f).join('')`: mapping over a non-array value throws a TypeError,
and any error raised by the callback propagates. -/
def jsJoinMapM (v : JSVal) (f : JSVal → Except String String) : Except String String :=
  match v with
  | JSVal.arr xs =>
      match xs.mapM f with
      | Except.ok l => Except.ok (String.join l)
      | Except.error e => Except.error e
  | _ => Except.error "TypeError: map is not a function"

/-- `v.toLowerCase()`: defined for strings, a TypeError for every other value. -/
def jsToLowerE (v : JSVal) : Except String String :=
  match v with
  | JSVal.str s => Except.ok s.toLower
  | _ => Except.error "TypeError: toLowerCase is not a function"

/-! ### Navigation -/

/-- One generated navigation link: its target section and display label. -/
structure NavEntry where
  id : Section
  name : String
deriving DecidableEq, Repr

/-- `DataLoader.formatNavName`: the fixed label mapping, falling back to the
capitalized identifier (which only footer would use). -/
def formatNavName (c : Section) : String :=
  match c with
  | Section.hero => "Home"
  | Section.about => "About"
  | Section.experience => "Experience"
  | Section.projects => "Projects"
  | Section.contact => "Contact"
  | Section.footer => "Footer"

/-- The nav items built in `DataLoader.generateNavigation` from `this.sections`:
every section except footer, with its display label. -/
def navItemsOf (sections : List Section) : List NavEntry :=
  (sections.filter (fun c => c ≠ Section.footer)).map
    (fun c => { id := c, name := formatNavName c })

/-- `this.data.resume || (this.data.personal ? this.data.personal.resume : null)`. -/
def resumeUrlOf (d : PortfolioDocument) : JSVal :=
  if truthy (getField d "resume") then getField d "resume"
  else if truthy (getField d "personal") then jsGet (getField d "personal") "resume"
  else JSVal.null

/-! ### The rendered page

One field per DOM slot the DataLoader writes.  The two name slots matched by
the attribute selector for the dynamic name (hero and footer) always receive
the same value, so they are modelled as the single field `dynName`. -/

structure DomState where
  visible : List Section
  projectsForced : Bool
  dynName : String
  dynTitle : String
  dynDescription : String
  heroPrimary : String × String
  heroSecondary : String × String
  aboutDescHTML : String
  skillsHTML : String
  statCount : Int
  experienceHTML : String
  projectsHTML : String
  contactTitle : String
  contactDescription : String
  contactSocialHTML : String
  footerYear : Int
  footerSocialHTML : String
  navEntries : List NavEntry
  navResume : Option String
  docTitle : String
  metaDescription : String
deriving DecidableEq, Repr

/-- A rendering step: the new page state, or a thrown error together with the
page state at the moment of the throw. -/
abbrev RenderResult := Except (String × DomState) DomState

/-- A conditional container write as the renderers perform it: when the guard
holds, evaluate the markup (which may throw before anything is written) and
assign it; otherwise leave the container alone. -/
def condWrite (cond : Bool) (comp : Except String String)
    (wr : String → DomState → DomState) (s : DomState) : RenderResult :=
  if cond then
    match comp with
    | Except.ok v => Except.ok (wr v s)
    | Except.error m => Except.error (m, s)
  else Except.ok s

/-- `DataLoader.calculateExperience`: a hardcoded placeholder. -/
def calculateExperience (_personal : JSVal) : Int := 5

/-- The primary call-to-action button write of the hero renderer. -/
def heroPrimaryWrite (hero : JSVal) (s : DomState) : DomState :=
  if truthy (jsGet hero "primaryButton") then
    { s with heroPrimary :=
        (jsToString (jsGet (jsGet hero "primaryButton") "link"),
         jsToString (jsGet (jsGet hero "primaryButton") "text")) }
  else s

/-- The secondary call-to-action button write of the hero renderer. -/
def heroSecondaryWrite (hero : JSVal) (s : DomState) : DomState :=
  if truthy (jsGet hero "secondaryButton") then
    { s with heroSecondary :=
        (jsToString (jsGet (jsGet hero "secondaryButton") "link"),
         jsToString (jsGet (jsGet hero "secondaryButton") "text")) }
  else s

/-- `DataLoader.renderHeroSection`: name and title always, description and the
two call-to-action buttons only when the corresponding data is truthy.  This
renderer performs no list iteration and never throws. -/
def renderHeroSection (d : PortfolioDocument) (s : DomState) : DomState :=
  if truthy (getField d "hero") then
    heroSecondaryWrite (getField d "hero") (heroPrimaryWrite (getField d "hero")
      { s with
        dynName := jsToString (jsGet (getField d "personal") "name"),
        dynTitle := jsToString (jsGet (getField d "personal") "title"),
        dynDescription := jsToString (jsGet (getField d "hero") "description") })
  else
    { s with dynName := jsToString (jsGet (getField d "personal") "name"),
             dynTitle := jsToString (jsGet (getField d "personal") "title") }

/-- The paragraph fragment of the about description. -/
def paragraphHTML (p : JSVal) : String :=
  "<p>" ++ jsToString p ++ "</p>"

/-- The skill chip fragment. -/
def skillTagHTML (sk : JSVal) : String :=
  "<span class=\"skill-tag\">" ++ jsToString sk ++ "</span>"

/-- `DataLoader.renderAboutSection`: description paragraphs, skill chips and
the experience counter, each behind its own data guard; a throw in an earlier
write keeps the later containers untouched. -/
def renderAboutSection (d : PortfolioDocument) (s : DomState) : RenderResult :=
  match condWrite (truthy (jsGet (getField d "about") "description"))
      (jsJoinMapM (jsGet (getField d "about") "description")
        (fun p => Except.ok (paragraphHTML p)))
      (fun v t => { t with aboutDescHTML := v }) s with
  | Except.error e => Except.error e
  | Except.ok s1 =>
      match condWrite (truthy (jsGet (getField d "about") "skills"))
          (jsJoinMapM (jsGet (getField d "about") "skills")
            (fun sk => Except.ok (skillTagHTML sk)))
          (fun v t => { t with skillsHTML := v }) s1 with
      | Except.error e => Except.error e
      | Except.ok s2 =>
          if truthy (getField d "personal") then
            Except.ok { s2 with statCount := calculateExperience (getField d "personal") }
          else
            Except.ok s2

/-- The tech chip fragment shared by experience items and project cards. -/
def techTagHTML (t : JSVal) : String :=
  "<span class=\"tech-tag\">" ++ jsToString t ++ "</span>"

/-- `DataLoader.createExperienceItem`: the markup of one experience card.
Property reads throw on a null or undefined item; the achievements list is
rendered only when truthy; iterating a non-list achievements or technologies
value throws.  Insignificant template whitespace is normalized. -/
def createExperienceItem (exp : JSVal) : Except String String := do
  let company ← jsGetE exp "company"
  let position ← jsGetE exp "position"
  let location ← jsGetE exp "location"
  let description ← jsGetE exp "description"
  let ach ← jsGetE exp "achievements"
  let achHTML ←
    if truthy ach then
      (jsJoinMapM ach (fun a => Except.ok ("<li>" ++ jsToString a ++ "</li>"))).map
        (fun inner => "<ul class=\"experience-achievements\">" ++ inner ++ "</ul>")
    else Except.ok ""
  let tech ← jsGetE exp "technologies"
  let techHTML ← jsJoinMapM tech (fun t => Except.ok (techTagHTML t))
  let duration ← jsGetE exp "duration"
  Except.ok
    ("<div class=\"experience-item\"><div class=\"experience-content\">" ++
     "<h3 class=\"experience-company\">" ++ jsToString company ++ "</h3>" ++
     "<h4 class=\"experience-position\">" ++ jsToString position ++ "</h4>" ++
     "<p class=\"experience-location\"><i class=\"fas fa-map-marker-alt\"></i> " ++
     jsToString location ++ "</p>" ++
     "<p class=\"experience-description\">" ++ jsToString description ++ "</p>" ++
     achHTML ++
     "<div class=\"experience-tech\">" ++ techHTML ++ "</div></div>" ++
     "<div class=\"experience-date\">" ++ jsToString duration ++ "</div></div>")

/-- `DataLoader.renderExperienceSection`: returns untouched unless the
experience data is truthy, then rebuilds the timeline markup. -/
def renderExperienceSection (d : PortfolioDocument) (s : DomState) : RenderResult :=
  condWrite (truthy (getField d "experience"))
    (jsJoinMapM (getField d "experience") createExperienceItem)
    (fun v t => { t with experienceHTML := v }) s

/-- `DataLoader.createProjectCard`: the markup of one project card; the two
link anchors appear only for truthy URLs. -/
def createProjectCard (p : JSVal) : Except String String := do
  let title ← jsGetE p "title"
  let description ← jsGetE p "description"
  let tech ← jsGetE p "technologies"
  let techHTML ← jsJoinMapM tech (fun t => Except.ok (techTagHTML t))
  let github ← jsGetE p "githubUrl"
  let live ← jsGetE p "liveUrl"
  Except.ok
    ("<div class=\"project-card\"><div class=\"project-image\">" ++
     "<i class=\"fas fa-code\"></i></div><div class=\"project-content\">" ++
     "<h3 class=\"project-title\">" ++ jsToString title ++ "</h3>" ++
     "<p class=\"project-description\">" ++ jsToString description ++ "</p>" ++
     "<div class=\"project-tech\">" ++ techHTML ++ "</div>" ++
     "<div class=\"project-links\">" ++
     (if truthy github then
        "<a href=\"" ++ jsToString github ++
        "\" target=\"_blank\" class=\"project-link\"><i class=\"fab fa-github\"></i> Code</a>"
      else "") ++
     (if truthy live then
        "<a href=\"" ++ jsToString live ++
        "\" target=\"_blank\" class=\"project-link\"><i class=\"fas fa-external-link-alt\"></i> Live Demo</a>"
      else "") ++
     "</div></div></div>")

/-- `DataLoader.renderProjectsSection`: returns untouched unless the projects
data is truthy, then rebuilds the grid and forces the section visible. -/
def renderProjectsSection (d : PortfolioDocument) (s : DomState) : RenderResult :=
  if truthy (getField d "projects") then
    match jsJoinMapM (getField d "projects") createProjectCard with
    | Except.ok v => Except.ok { s with projectsHTML := v, projectsForced := true }
    | Except.error m => Except.error (m, s)
  else Except.ok s

/-- `DataLoader.createSocialLink`: the icon class is looked up from the fixed
icon map after lowercasing, which throws when the icon field is not a string. -/
def createSocialLink (link : JSVal) : Except String String := do
  let icon ← jsGetE link "icon"
  let lower ← jsToLowerE icon
  let iconClass :=
    if lower = "linkedin" then "fab fa-linkedin"
    else if lower = "github" then "fab fa-github"
    else if lower = "twitter" then "fab fa-twitter"
    else if lower = "email" then "fas fa-envelope"
    else if lower = "website" then "fas fa-globe"
    else "fas fa-link"
  let url ← jsGetE link "url"
  let platform ← jsGetE link "platform"
  Except.ok
    ("<a href=\"" ++ jsToString url ++
     "\" target=\"_blank\" class=\"social-link\" aria-label=\"" ++
     jsToString platform ++ "\"><i class=\"" ++ iconClass ++ "\"></i></a>")

/-- `DataLoader.renderContactSection`: returns untouched unless contact data
is truthy, then writes title and description and, when the social link list is
truthy, the social markup. -/
def renderContactSection (d : PortfolioDocument) (s : DomState) : RenderResult :=
  if truthy (getField d "contact") then
    condWrite (truthy (jsGet (getField d "contact") "socialLinks"))
      (jsJoinMapM (jsGet (getField d "contact") "socialLinks") createSocialLink)
      (fun v t => { t with contactSocialHTML := v })
      { s with
        contactTitle := jsToString (jsGet (getField d "contact") "title"),
        contactDescription := jsToString (jsGet (getField d "contact") "description") }
  else Except.ok s

/-- `DataLoader.renderFooter`: the current year, the name slot, and the social
links repeated when contact data with a social list is present. -/
def renderFooter (d : PortfolioDocument) (year : Int) (s : DomState) : RenderResult :=
  condWrite (truthy (getField d "contact") &&
      truthy (jsGet (getField d "contact") "socialLinks"))
    (jsJoinMapM (jsGet (getField d "contact") "socialLinks") createSocialLink)
    (fun v t => { t with footerSocialHTML := v })
    { s with footerYear := year,
             dynName := jsToString (jsGet (getField d "personal") "name") }

/-- `DataLoader.renderSectionContent`: dispatch over the section identifier. -/
def renderSectionContent (d : PortfolioDocument) (year : Int) (c : Section)
    (s : DomState) : RenderResult :=
  match c with
  | Section.hero => Except.ok (renderHeroSection d s)
  | Section.about => renderAboutSection d s
  | Section.experience => renderExperienceSection d s
  | Section.projects => renderProjectsSection d s
  | Section.contact => renderContactSection d s
  | Section.footer => renderFooter d year s

/-- Adding the section-hidden class to every section at the start of
`DataLoader.renderSections`. -/
def hideAllSections (s : DomState) : DomState :=
  { s with visible := [] }

/-- Removing the section-hidden class from one section before rendering it. -/
def showSection (c : Section) (s : DomState) : DomState :=
  { s with visible := s.visible ++ [c] }

/-- The loop body of `DataLoader.renderSections`: every known identifier has a
matching element in the static markup, so each listed section is shown and its
content rendered; a throw aborts the remaining sections. -/
def showAndRender (d : PortfolioDocument) (year : Int) :
    List Section → DomState → RenderResult
  | [], s => Except.ok s
  | c :: rest, s =>
      match renderSectionContent d year c (showSection c s) with
      | Except.ok s1 => showAndRender d year rest s1
      | Except.error e => Except.error e

/-- `DataLoader.generateNavigation`, reading the section list computed by the
same `processData` pass: the menu markup is replaced wholesale (clearing any
previously appended resume link) and the resume link is appended afresh when a
resume URL resolves. -/
def generateNavigation (d : PortfolioDocument) (sections : List Section)
    (s : DomState) : DomState :=
  if truthy (resumeUrlOf d) then
    { s with navEntries := navItemsOf sections,
             navResume := some (jsToString (resumeUrlOf d)) }
  else
    { s with navEntries := navItemsOf sections, navResume := none }

/-- `DataLoader.renderSections` followed by its trailing
`generateNavigation` call: hide everything, show and render each section of
the current eligibility pass, then rebuild the navigation. -/
def renderSectionsM (d : PortfolioDocument) (year : Int) (s : DomState) :
    RenderResult :=
  match showAndRender d year (processData d) (hideAllSections s) with
  | Except.ok s1 => Except.ok (generateNavigation d (processData d) s1)
  | Except.error e => Except.error e

/-! ### Initialization -/

/-- The outcome of `DataLoader.loadData`: either the parsed document, or a
thrown error (a network failure or a non-success HTTP status, both rethrown
as one failure). -/
inductive FetchOutcome where
  | success (doc : PortfolioDocument)
  | failure (msg : String)

/-- The page state visible to the user: the rendered DOM, the loading screen
replaced by the recovery markup when an error was caught, the loader fields
`sections` and `loaded`, and whether the dataLoaded event has fired. -/
structure AppState where
  dom : DomState
  errorScreen : Option String
  sections : List Section
  loaded : Bool
  dataLoadedFired : Bool
deriving DecidableEq, Repr

/-- The recovery markup `DataLoader.showErrorState` installs: a full-page
message whose only action is a manual retry button reloading the page. -/
def errorStateHTML : String :=
  "<div class=\"error-content\"><i class=\"fas fa-exclamation-triangle\"></i>" ++
  "<h2>Oops! Something went wrong</h2>" ++
  "<p>Unable to load portfolio data. Please check your connection and try again.</p>" ++
  "<button onclick=\"location.reload()\" class=\"btn btn-primary\">" ++
  "<i class=\"fas fa-redo\"></i> Retry</button></div>"

/-- `DataLoader.showErrorState`. -/
def showErrorState (s : AppState) : AppState :=
  { s with errorScreen := some errorStateHTML }

/-- `DataLoader.setupDynamicContent`: page title and meta description from the
identity record, when present. -/
def setupDynamicContent (d : PortfolioDocument) (s : DomState) : DomState :=
  let personal := getField d "personal"
  if truthy personal then
    { s with
      docTitle := jsToString (jsGet personal "name") ++ " - " ++
                  jsToString (jsGet personal "title"),
      metaDescription := "Portfolio of " ++ jsToString (jsGet personal "name") ++
                  ", " ++ jsToString (jsGet personal "title") }
  else s

/-- `DataLoader.init`: await the fetch, then resolve, render and publish; any
throw anywhere in the sequence is caught at this level and converted into the
recovery screen.  On a fetch failure nothing after `loadData` runs. -/
def initModel (fetch : FetchOutcome) (year : Int) (s : AppState) : AppState :=
  match fetch with
  | FetchOutcome.failure _ => showErrorState s
  | FetchOutcome.success d =>
      let s1 := { s with sections := processData d }
      match renderSectionsM d year s1.dom with
      | Except.error (_, domPartial) => showErrorState { s1 with dom := domPartial }
      | Except.ok dom1 =>
          { s1 with dom := setupDynamicContent d dom1,
                    loaded := true, dataLoadedFired := true }

/-- The page as served, before any script ran: the static markup shows every
section, containers are empty, no navigation has been generated. -/
def initialDomState : DomState :=
  { visible := canonicalSections
    projectsForced := false
    dynName := ""
    dynTitle := ""
    dynDescription := ""
    heroPrimary := ("", "")
    heroSecondary := ("", "")
    aboutDescHTML := ""
    skillsHTML := ""
    statCount := 0
    experienceHTML := ""
    projectsHTML := ""
    contactTitle := ""
    contactDescription := ""
    contactSocialHTML := ""
    footerYear := 0
    footerSocialHTML := ""
    navEntries := []
    navResume := none
    docTitle := ""
    metaDescription := "" }

/-- The application state at page load. -/
def initialAppState : AppState :=
  { dom := initialDomState
    errorScreen := none
    sections := []
    loaded := false
    dataLoadedFired := false }

/-! ### The effect of a successful render pass

Total functions describing what each renderer writes when it does not throw;
used to state and prove idempotence of the render pass. -/

/-- Whether an Except value is a success. -/
def exOk (comp : Except String String) : Bool :=
  match comp with
  | Except.ok _ => true
  | Except.error _ => false

/-- The payload of a successful Except value, defaulting to the empty string. -/
def exValue (comp : Except String String) : String :=
  match comp with
  | Except.ok v => v
  | Except.error _ => ""

/-- The effect of `condWrite` on the success path. -/
def condApply (cond : Bool) (comp : Except String String)
    (wr : String → DomState → DomState) (s : DomState) : DomState :=
  if cond && exOk comp then wr (exValue comp) s else s

/-- The final conditional write of the about renderer. -/
def statWrite (d : PortfolioDocument) (s : DomState) : DomState :=
  if truthy (getField d "personal") then
    { s with statCount := calculateExperience (getField d "personal") }
  else s

/-- The writes of a successful `renderAboutSection`. -/
def aboutApply (d : PortfolioDocument) (s : DomState) : DomState :=
  statWrite d
    (condApply (truthy (jsGet (getField d "about") "skills"))
      (jsJoinMapM (jsGet (getField d "about") "skills")
        (fun sk => Except.ok (skillTagHTML sk)))
      (fun v t => { t with skillsHTML := v })
      (condApply (truthy (jsGet (getField d "about") "description"))
        (jsJoinMapM (jsGet (getField d "about") "description")
          (fun p => Except.ok (paragraphHTML p)))
        (fun v t => { t with aboutDescHTML := v }) s))

/-- The writes of a successful `renderExperienceSection`. -/
def expApply (d : PortfolioDocument) (s : DomState) : DomState :=
  condApply (truthy (getField d "experience"))
    (jsJoinMapM (getField d "experience") createExperienceItem)
    (fun v t => { t with experienceHTML := v }) s

/-- The writes of a successful `renderProjectsSection`. -/
def projApply (d : PortfolioDocument) (s : DomState) : DomState :=
  if truthy (getField d "projects") &&
      exOk (jsJoinMapM (getField d "projects") createProjectCard) then
    { s with projectsHTML := exValue (jsJoinMapM (getField d "projects") createProjectCard),
             projectsForced := true }
  else s

/-- The writes of a successful `renderContactSection`. -/
def contactApply (d : PortfolioDocument) (s : DomState) : DomState :=
  if truthy (getField d "contact") then
    condApply (truthy (jsGet (getField d "contact") "socialLinks"))
      (jsJoinMapM (jsGet (getField d "contact") "socialLinks") createSocialLink)
      (fun v t => { t with contactSocialHTML := v })
      { s with
        contactTitle := jsToString (jsGet (getField d "contact") "title"),
        contactDescription := jsToString (jsGet (getField d "contact") "description") }
  else s

/-- The writes of a successful `renderFooter`. -/
def footerApply (d : PortfolioDocument) (year : Int) (s : DomState) : DomState :=
  condApply (truthy (getField d "contact") &&
      truthy (jsGet (getField d "contact") "socialLinks"))
    (jsJoinMapM (jsGet (getField d "contact") "socialLinks") createSocialLink)
    (fun v t => { t with footerSocialHTML := v })
    { s with footerYear := year,
             dynName := jsToString (jsGet (getField d "personal") "name") }

/-- The writes of a successful `renderSectionContent`. -/
def secApply (d : PortfolioDocument) (year : Int) (c : Section)
    (s : DomState) : DomState :=
  match c with
  | Section.hero => renderHeroSection d s
  | Section.about => aboutApply d s
  | Section.experience => expApply d s
  | Section.projects => projApply d s
  | Section.contact => contactApply d s
  | Section.footer => footerApply d year s

/-- The writes of a successful `showAndRender` run over a section list. -/
def applyList (d : PortfolioDocument) (year : Int) :
    List Section → DomState → DomState
  | [], s => s
  | c :: rest, s => applyList d year rest (secApply d year c (showSection c s))

/-- The writes of a successful `renderSectionsM` pass. -/
def bigApply (d : PortfolioDocument) (year : Int) (s : DomState) : DomState :=
  generateNavigation d (processData d)
    (applyList d year (processData d) (hideAllSections s))

/-- One conditional stage of the render pass: when the section is eligible it
is shown and its writes applied, otherwise the state passes through. -/
def stage (d : PortfolioDocument) (year : Int) (c : Section) (b : Bool)
    (u : DomState) : DomState :=
  if b then secApply d year c (showSection c u) else u

/-- The shape the specification requires of a list-valued section field:
present and a non-empty ordered list. -/
def isNonemptyList (v : JSVal) : Bool :=
  match v with
  | JSVal.arr (_ :: _) => true
  | _ => false

/-- Modelled from the spec: the escaping of markup-significant characters the
design notes require at the render boundary.  The repository contains no
escaping routine, so this definition follows the words of the spec. -/
def escapeHTML (s : String) : String :=
  String.join (s.data.map (fun ch =>
    if ch = '&' then "&amp;"
    else if ch = '<' then "&lt;"
    else if ch = '>' then "&gt;"
    else if ch = '"' then "&quot;"
    else String.singleton ch))

/-- A document whose only defect is one experience item lacking its
technologies list, while about and contact are well-formed and eligible. -/
def failingDoc : PortfolioDocument :=
  [("personal", JSVal.obj [("name", JSVal.str "Ada"), ("title", JSVal.str "Dev")]),
   ("about", JSVal.obj [("description", JSVal.arr [JSVal.str "Hi"])]),
   ("experience", JSVal.arr [JSVal.obj
      [("company", JSVal.str "ACME"), ("position", JSVal.str "Eng"),
       ("location", JSVal.str "X"), ("description", JSVal.str "D"),
       ("duration", JSVal.str "2020")]]),
   ("contact", JSVal.obj [("title", JSVal.str "Reach")])]

/-- A document whose about skill list carries markup-significant characters. -/
def markupDoc : PortfolioDocument :=
  [("personal", JSVal.obj [("name", JSVal.str "Ada"), ("title", JSVal.str "Dev")]),
   ("about", JSVal.obj [("skills", JSVal.arr [JSVal.str "<b>x</b>"])])]

/-- The page state after one render pass over the empty document. -/
def renderedEmpty : DomState :=
  { initialDomState with visible := [] }

/-! ### Helper lemmas -/

theorem condWrite_ok (cond : Bool) (comp : Except String String)
    (wr : String → DomState → DomState) (s s₁ : DomState)
    (h : condWrite cond comp wr s = Except.ok s₁) :
    s₁ = condApply cond comp wr s ∧
    ∀ t, condWrite cond comp wr t = Except.ok (condApply cond comp wr t) := by
  unfold condWrite at h
  unfold condWrite condApply
  cases cond with
  | false => simp_all [exOk]
  | true => cases comp <;> simp_all [exOk, exValue]

theorem renderAbout_spec (d : PortfolioDocument) (s s₁ : DomState)
    (h : renderAboutSection d s = Except.ok s₁) :
    s₁ = aboutApply d s ∧
    ∀ t, renderAboutSection d t = Except.ok (aboutApply d t) := by
  unfold renderAboutSection at h
  cases h1 : condWrite (truthy (jsGet (getField d "about") "description"))
      (jsJoinMapM (jsGet (getField d "about") "description")
        (fun p => Except.ok (paragraphHTML p)))
      (fun v t => { t with aboutDescHTML := v }) s with
  | error e => rw [h1] at h; exact absurd h (by simp)
  | ok u1 =>
      rw [h1] at h
      dsimp only at h
      obtain ⟨hu1, hall1⟩ := condWrite_ok _ _ _ _ _ h1
      cases h2 : condWrite (truthy (jsGet (getField d "about") "skills"))
          (jsJoinMapM (jsGet (getField d "about") "skills")
            (fun sk => Except.ok (skillTagHTML sk)))
          (fun v t => { t with skillsHTML := v }) u1 with
      | error e => rw [h2] at h; exact absurd h (by simp)
      | ok u2 =>
          rw [h2] at h
          dsimp only at h
          obtain ⟨hu2, hall2⟩ := condWrite_ok _ _ _ _ _ h2
          constructor
          · unfold aboutApply statWrite
            rw [← hu1, ← hu2]
            split at h <;> simp_all
          · intro t
            unfold renderAboutSection aboutApply statWrite
            simp only [hall1, hall2]
            split <;> rfl

theorem renderExperience_spec (d : PortfolioDocument) (s s₁ : DomState)
    (h : renderExperienceSection d s = Except.ok s₁) :
    s₁ = expApply d s ∧
    ∀ t, renderExperienceSection d t = Except.ok (expApply d t) := by
  unfold renderExperienceSection at h
  unfold renderExperienceSection expApply
  exact condWrite_ok _ _ _ _ _ h

theorem renderProjects_spec (d : PortfolioDocument) (s s₁ : DomState)
    (h : renderProjectsSection d s = Except.ok s₁) :
    s₁ = projApply d s ∧
    ∀ t, renderProjectsSection d t = Except.ok (projApply d t) := by
  unfold renderProjectsSection at h
  unfold renderProjectsSection projApply
  cases hc : truthy (getField d "projects") with
  | false => simp_all
  | true =>
      simp only [hc, if_true, Bool.true_and] at h ⊢
      cases hm : jsJoinMapM (getField d "projects") createProjectCard with
      | error e => rw [hm] at h; exact absurd h (by simp)
      | ok v => rw [hm] at h; simp_all [exOk, exValue]

theorem renderContact_spec (d : PortfolioDocument) (s s₁ : DomState)
    (h : renderContactSection d s = Except.ok s₁) :
    s₁ = contactApply d s ∧
    ∀ t, renderContactSection d t = Except.ok (contactApply d t) := by
  unfold renderContactSection at h
  unfold renderContactSection contactApply
  cases hc : truthy (getField d "contact") with
  | false => simp_all
  | true =>
      simp only [hc, if_true] at h ⊢
      obtain ⟨h1, h2⟩ := condWrite_ok _ _ _ _ _ h
      exact ⟨h1, fun t => h2 _⟩

theorem renderFooter_spec (d : PortfolioDocument) (year : Int) (s s₁ : DomState)
    (h : renderFooter d year s = Except.ok s₁) :
    s₁ = footerApply d year s ∧
    ∀ t, renderFooter d year t = Except.ok (footerApply d year t) := by
  unfold renderFooter at h
  unfold renderFooter footerApply
  obtain ⟨h1, h2⟩ := condWrite_ok _ _ _ _ _ h
  exact ⟨h1, fun t => h2 _⟩

theorem renderSectionContent_spec (d : PortfolioDocument) (year : Int)
    (c : Section) (s s₁ : DomState)
    (h : renderSectionContent d year c s = Except.ok s₁) :
    s₁ = secApply d year c s ∧
    ∀ t, renderSectionContent d year c t = Except.ok (secApply d year c t) := by
  cases c with
  | hero =>
      unfold renderSectionContent at h
      injection h with h
      subst h
      exact ⟨rfl, fun t => rfl⟩
  | about => exact renderAbout_spec d s s₁ h
  | experience => exact renderExperience_spec d s s₁ h
  | projects => exact renderProjects_spec d s s₁ h
  | contact => exact renderContact_spec d s s₁ h
  | footer => exact renderFooter_spec d year s s₁ h

theorem showAndRender_spec (d : PortfolioDocument) (year : Int)
    (l : List Section) (s s₁ : DomState)
    (h : showAndRender d year l s = Except.ok s₁) :
    s₁ = applyList d year l s ∧
    ∀ t, showAndRender d year l t = Except.ok (applyList d year l t) := by
  induction l generalizing s s₁ with
  | nil =>
      unfold showAndRender at h
      injection h with h
      subst h
      exact ⟨rfl, fun t => rfl⟩
  | cons c rest ih =>
      unfold showAndRender at h
      cases h1 : renderSectionContent d year c (showSection c s) with
      | error e => rw [h1] at h; exact absurd h (by simp)
      | ok u =>
          rw [h1] at h
          dsimp only at h
          obtain ⟨hu, hall⟩ := renderSectionContent_spec d year c _ _ h1
          subst hu
          obtain ⟨hs, hrest⟩ := ih _ _ h
          refine ⟨hs, fun t => ?_⟩
          unfold showAndRender applyList
          simp only [hall]
          exact hrest _

theorem renderSectionsM_spec (d : PortfolioDocument) (year : Int)
    (s s₁ : DomState) (h : renderSectionsM d year s = Except.ok s₁) :
    s₁ = bigApply d year s ∧
    ∀ t, renderSectionsM d year t = Except.ok (bigApply d year t) := by
  unfold renderSectionsM at h
  cases h1 : showAndRender d year (processData d) (hideAllSections s) with
  | error e => rw [h1] at h; exact absurd h (by simp)
  | ok u =>
      rw [h1] at h
      obtain ⟨hu, hall⟩ := showAndRender_spec d year _ _ _ h1
      constructor
      · unfold bigApply
        rw [← hu]
        injection h with h
        exact h.symm
      · intro t
        unfold renderSectionsM bigApply
        rw [hall (hideAllSections t)]

/-! ### Idempotence of the render writes -/

theorem applyList_append (d : PortfolioDocument) (year : Int)
    (l1 l2 : List Section) (u : DomState) :
    applyList d year (l1 ++ l2) u = applyList d year l2 (applyList d year l1 u) := by
  induction l1 generalizing u with
  | nil => rfl
  | cons c rest ih =>
      simp only [List.cons_append, applyList]
      exact ih _

theorem applyList_ite_singleton (d : PortfolioDocument) (year : Int)
    (c : Section) (b : Bool) (u : DomState) :
    applyList d year (if b then [c] else []) u = stage d year c b u := by
  cases b <;> simp [applyList, stage]

theorem applyList_processData (d : PortfolioDocument) (year : Int)
    (u : DomState) :
    applyList d year (processData d) u =
      stage d year Section.footer (hasValidData (getField d "personal"))
        (stage d year Section.contact (hasValidData (getField d "contact"))
          (stage d year Section.projects
              (hasValidData (getField d "projects") &&
                jsGtZero (jsLength (getField d "projects")))
            (stage d year Section.experience
                (hasValidData (getField d "experience") &&
                  jsGtZero (jsLength (getField d "experience")))
              (stage d year Section.about (hasValidData (getField d "about"))
                (stage d year Section.hero (hasValidData (getField d "personal"))
                  u))))) := by
  unfold processData
  simp only [applyList_append, applyList_ite_singleton]

theorem DomState.extFields (a b : DomState)
    (h1 : a.visible = b.visible)
    (h2 : a.projectsForced = b.projectsForced)
    (h3 : a.dynName = b.dynName)
    (h4 : a.dynTitle = b.dynTitle)
    (h5 : a.dynDescription = b.dynDescription)
    (h6 : a.heroPrimary = b.heroPrimary)
    (h7 : a.heroSecondary = b.heroSecondary)
    (h8 : a.aboutDescHTML = b.aboutDescHTML)
    (h9 : a.skillsHTML = b.skillsHTML)
    (h10 : a.statCount = b.statCount)
    (h11 : a.experienceHTML = b.experienceHTML)
    (h12 : a.projectsHTML = b.projectsHTML)
    (h13 : a.contactTitle = b.contactTitle)
    (h14 : a.contactDescription = b.contactDescription)
    (h15 : a.contactSocialHTML = b.contactSocialHTML)
    (h16 : a.footerYear = b.footerYear)
    (h17 : a.footerSocialHTML = b.footerSocialHTML)
    (h18 : a.navEntries = b.navEntries)
    (h19 : a.navResume = b.navResume)
    (h20 : a.docTitle = b.docTitle)
    (h21 : a.metaDescription = b.metaDescription) : a = b := by
  cases a; cases b; simp_all

theorem stage_hero (d : PortfolioDocument) (year : Int) (b : Bool) (u : DomState) :
    stage d year Section.hero b u =
      { u with
        visible := if b then u.visible ++ [Section.hero] else u.visible,
        dynName := if b then jsToString (jsGet (getField d "personal") "name")
          else u.dynName,
        dynTitle := if b then jsToString (jsGet (getField d "personal") "title")
          else u.dynTitle,
        dynDescription := if b && truthy (getField d "hero") then
            jsToString (jsGet (getField d "hero") "description")
          else u.dynDescription,
        heroPrimary := if b && truthy (getField d "hero") &&
            truthy (jsGet (getField d "hero") "primaryButton") then
            (jsToString (jsGet (jsGet (getField d "hero") "primaryButton") "link"),
             jsToString (jsGet (jsGet (getField d "hero") "primaryButton") "text"))
          else u.heroPrimary,
        heroSecondary := if b && truthy (getField d "hero") &&
            truthy (jsGet (getField d "hero") "secondaryButton") then
            (jsToString (jsGet (jsGet (getField d "hero") "secondaryButton") "link"),
             jsToString (jsGet (jsGet (getField d "hero") "secondaryButton") "text"))
          else u.heroSecondary } := by
  cases b <;>
    cases h1 : truthy (getField d "hero") <;>
      cases h2 : truthy (jsGet (getField d "hero") "primaryButton") <;>
        cases h3 : truthy (jsGet (getField d "hero") "secondaryButton") <;>
          simp [stage, secApply, renderHeroSection, heroPrimaryWrite,
            heroSecondaryWrite, showSection, h1, h2, h3]

theorem stage_about (d : PortfolioDocument) (year : Int) (b : Bool) (u : DomState) :
    stage d year Section.about b u =
      { u with
        visible := if b then u.visible ++ [Section.about] else u.visible,
        aboutDescHTML := if b && truthy (jsGet (getField d "about") "description") &&
            exOk (jsJoinMapM (jsGet (getField d "about") "description")
              (fun p => Except.ok (paragraphHTML p))) then
            exValue (jsJoinMapM (jsGet (getField d "about") "description")
              (fun p => Except.ok (paragraphHTML p)))
          else u.aboutDescHTML,
        skillsHTML := if b && truthy (jsGet (getField d "about") "skills") &&
            exOk (jsJoinMapM (jsGet (getField d "about") "skills")
              (fun sk => Except.ok (skillTagHTML sk))) then
            exValue (jsJoinMapM (jsGet (getField d "about") "skills")
              (fun sk => Except.ok (skillTagHTML sk)))
          else u.skillsHTML,
        statCount := if b && truthy (getField d "personal") then
            calculateExperience (getField d "personal")
          else u.statCount } := by
  cases b with
  | false => simp [stage]
  | true =>
      simp only [stage, if_true, secApply, aboutApply, statWrite, condApply,
        showSection, Bool.true_and]
      repeat' split <;> simp_all

theorem stage_experience (d : PortfolioDocument) (year : Int) (b : Bool)
    (u : DomState) :
    stage d year Section.experience b u =
      { u with
        visible := if b then u.visible ++ [Section.experience] else u.visible,
        experienceHTML := if b && truthy (getField d "experience") &&
            exOk (jsJoinMapM (getField d "experience") createExperienceItem) then
            exValue (jsJoinMapM (getField d "experience") createExperienceItem)
          else u.experienceHTML } := by
  cases b with
  | false => simp [stage]
  | true =>
      simp only [stage, if_true, secApply, expApply, condApply, showSection,
        Bool.true_and]
      repeat' split <;> simp_all

theorem stage_projects (d : PortfolioDocument) (year : Int) (b : Bool)
    (u : DomState) :
    stage d year Section.projects b u =
      { u with
        visible := if b then u.visible ++ [Section.projects] else u.visible,
        projectsHTML := if b && truthy (getField d "projects") &&
            exOk (jsJoinMapM (getField d "projects") createProjectCard) then
            exValue (jsJoinMapM (getField d "projects") createProjectCard)
          else u.projectsHTML,
        projectsForced := if b && truthy (getField d "projects") &&
            exOk (jsJoinMapM (getField d "projects") createProjectCard) then
            true
          else u.projectsForced } := by
  cases b with
  | false => simp [stage]
  | true =>
      simp only [stage, if_true, secApply, projApply, showSection, Bool.true_and]
      repeat' split <;> simp_all

theorem stage_contact (d : PortfolioDocument) (year : Int) (b : Bool)
    (u : DomState) :
    stage d year Section.contact b u =
      { u with
        visible := if b then u.visible ++ [Section.contact] else u.visible,
        contactTitle := if b && truthy (getField d "contact") then
            jsToString (jsGet (getField d "contact") "title")
          else u.contactTitle,
        contactDescription := if b && truthy (getField d "contact") then
            jsToString (jsGet (getField d "contact") "description")
          else u.contactDescription,
        contactSocialHTML := if b && truthy (getField d "contact") &&
            truthy (jsGet (getField d "contact") "socialLinks") &&
            exOk (jsJoinMapM (jsGet (getField d "contact") "socialLinks")
              createSocialLink) then
            exValue (jsJoinMapM (jsGet (getField d "contact") "socialLinks")
              createSocialLink)
          else u.contactSocialHTML } := by
  cases b with
  | false => simp [stage]
  | true =>
      simp only [stage, if_true, secApply, contactApply, condApply, showSection,
        Bool.true_and]
      repeat' split <;> simp_all

theorem stage_footer (d : PortfolioDocument) (year : Int) (b : Bool)
    (u : DomState) :
    stage d year Section.footer b u =
      { u with
        visible := if b then u.visible ++ [Section.footer] else u.visible,
        footerYear := if b then year else u.footerYear,
        dynName := if b then jsToString (jsGet (getField d "personal") "name")
          else u.dynName,
        footerSocialHTML := if b &&
            (truthy (getField d "contact") &&
              truthy (jsGet (getField d "contact") "socialLinks")) &&
            exOk (jsJoinMapM (jsGet (getField d "contact") "socialLinks")
              createSocialLink) then
            exValue (jsJoinMapM (jsGet (getField d "contact") "socialLinks")
              createSocialLink)
          else u.footerSocialHTML } := by
  cases b with
  | false => simp [stage]
  | true =>
      simp only [stage, if_true, secApply, footerApply, condApply, showSection,
        Bool.true_and]
      repeat' split <;> simp_all

theorem generateNavigation_eq (d : PortfolioDocument) (l : List Section)
    (s : DomState) :
    generateNavigation d l s =
      { s with
        navEntries := navItemsOf l,
        navResume := if truthy (resumeUrlOf d) then
            some (jsToString (resumeUrlOf d))
          else none } := by
  unfold generateNavigation
  split <;> simp_all

/-- The closed form of one successful render pass: every container holds
either a value computed from the document alone or its previous content, and
the visible list is exactly the eligibility pass. -/
theorem bigApply_closed (d : PortfolioDocument) (year : Int) (s : DomState) :
    bigApply d year s =
      { visible := processData d,
        projectsForced := if (hasValidData (getField d "projects") &&
              jsGtZero (jsLength (getField d "projects"))) &&
            truthy (getField d "projects") &&
            exOk (jsJoinMapM (getField d "projects") createProjectCard) then
            true
          else s.projectsForced,
        dynName := if hasValidData (getField d "personal") then
            jsToString (jsGet (getField d "personal") "name")
          else s.dynName,
        dynTitle := if hasValidData (getField d "personal") then
            jsToString (jsGet (getField d "personal") "title")
          else s.dynTitle,
        dynDescription := if hasValidData (getField d "personal") &&
            truthy (getField d "hero") then
            jsToString (jsGet (getField d "hero") "description")
          else s.dynDescription,
        heroPrimary := if hasValidData (getField d "personal") &&
            truthy (getField d "hero") &&
            truthy (jsGet (getField d "hero") "primaryButton") then
            (jsToString (jsGet (jsGet (getField d "hero") "primaryButton") "link"),
             jsToString (jsGet (jsGet (getField d "hero") "primaryButton") "text"))
          else s.heroPrimary,
        heroSecondary := if hasValidData (getField d "personal") &&
            truthy (getField d "hero") &&
            truthy (jsGet (getField d "hero") "secondaryButton") then
            (jsToString (jsGet (jsGet (getField d "hero") "secondaryButton") "link"),
             jsToString (jsGet (jsGet (getField d "hero") "secondaryButton") "text"))
          else s.heroSecondary,
        aboutDescHTML := if hasValidData (getField d "about") &&
            truthy (jsGet (getField d "about") "description") &&
            exOk (jsJoinMapM (jsGet (getField d "about") "description")
              (fun p => Except.ok (paragraphHTML p))) then
            exValue (jsJoinMapM (jsGet (getField d "about") "description")
              (fun p => Except.ok (paragraphHTML p)))
          else s.aboutDescHTML,
        skillsHTML := if hasValidData (getField d "about") &&
            truthy (jsGet (getField d "about") "skills") &&
            exOk (jsJoinMapM (jsGet (getField d "about") "skills")
              (fun sk => Except.ok (skillTagHTML sk))) then
            exValue (jsJoinMapM (jsGet (getField d "about") "skills")
              (fun sk => Except.ok (skillTagHTML sk)))
          else s.skillsHTML,
        statCount := if hasValidData (getField d "about") &&
            truthy (getField d "personal") then
            calculateExperience (getField d "personal")
          else s.statCount,
        experienceHTML := if (hasValidData (getField d "experience") &&
              jsGtZero (jsLength (getField d "experience"))) &&
            truthy (getField d "experience") &&
            exOk (jsJoinMapM (getField d "experience") createExperienceItem) then
            exValue (jsJoinMapM (getField d "experience") createExperienceItem)
          else s.experienceHTML,
        projectsHTML := if (hasValidData (getField d "projects") &&
              jsGtZero (jsLength (getField d "projects"))) &&
            truthy (getField d "projects") &&
            exOk (jsJoinMapM (getField d "projects") createProjectCard) then
            exValue (jsJoinMapM (getField d "projects") createProjectCard)
          else s.projectsHTML,
        contactTitle := if hasValidData (getField d "contact") &&
            truthy (getField d "contact") then
            jsToString (jsGet (getField d "contact") "title")
          else s.contactTitle,
        contactDescription := if hasValidData (getField d "contact") &&
            truthy (getField d "contact") then
            jsToString (jsGet (getField d "contact") "description")
          else s.contactDescription,
        contactSocialHTML := if hasValidData (getField d "contact") &&
            truthy (getField d "contact") &&
            truthy (jsGet (getField d "contact") "socialLinks") &&
            exOk (jsJoinMapM (jsGet (getField d "contact") "socialLinks")
              createSocialLink) then
            exValue (jsJoinMapM (jsGet (getField d "contact") "socialLinks")
              createSocialLink)
          else s.contactSocialHTML,
        footerYear := if hasValidData (getField d "personal") then year
          else s.footerYear,
        footerSocialHTML := if hasValidData (getField d "personal") &&
            (truthy (getField d "contact") &&
              truthy (jsGet (getField d "contact") "socialLinks")) &&
            exOk (jsJoinMapM (jsGet (getField d "contact") "socialLinks")
              createSocialLink) then
            exValue (jsJoinMapM (jsGet (getField d "contact") "socialLinks")
              createSocialLink)
          else s.footerSocialHTML,
        navEntries := navItemsOf (processData d),
        navResume := if truthy (resumeUrlOf d) then
            some (jsToString (resumeUrlOf d))
          else none,
        docTitle := s.docTitle,
        metaDescription := s.metaDescription } := by
  rw [bigApply, applyList_processData, stage_hero, stage_about, stage_experience,
    stage_projects, stage_contact, stage_footer, generateNavigation_eq]
  apply DomState.extFields
  case h1 =>
    dsimp only
    by_cases hp : hasValidData (getField d "personal") = true <;>
    by_cases ha : hasValidData (getField d "about") = true <;>
    by_cases he : hasValidData (getField d "experience") = true ∧
      jsGtZero (jsLength (getField d "experience")) = true <;>
    by_cases hj : hasValidData (getField d "projects") = true ∧
      jsGtZero (jsLength (getField d "projects")) = true <;>
    by_cases hc : hasValidData (getField d "contact") = true <;>
      simp [hideAllSections, processData, Bool.and_eq_true, hp, ha, he, hj, hc]
  all_goals
    dsimp only
    try rfl
  all_goals
    (repeat' split) <;> simp_all [hideAllSections]

theorem bigApply_idem (d : PortfolioDocument) (year : Int) (s : DomState) :
    bigApply d year (bigApply d year s) = bigApply d year s := by
  rw [bigApply_closed d year s, bigApply_closed]
  apply DomState.extFields <;> dsimp only <;>
    first
      | rfl
      | (repeat' split) <;> simp_all

/-! ### Helper lemmas for eligibility -/

theorem processData_eq_filter (d : PortfolioDocument) :
    processData d = canonicalSections.filter (eligibleSection d) := by
  unfold processData canonicalSections eligibleSection
  by_cases hp : hasValidData (getField d "personal") <;>
    by_cases ha : hasValidData (getField d "about") <;>
      by_cases he : hasValidData (getField d "experience") &&
        jsGtZero (jsLength (getField d "experience")) <;>
        by_cases hj : hasValidData (getField d "projects") &&
          jsGtZero (jsLength (getField d "projects")) <;>
          by_cases hc : hasValidData (getField d "contact") <;>
            simp [hp, ha, he, hj, hc, List.filter]

theorem mem_processData (d : PortfolioDocument) (c : Section) :
    c ∈ processData d ↔ eligibleSection d c = true := by
  rw [processData_eq_filter, List.mem_filter]
  constructor
  · rintro ⟨-, h⟩; exact h
  · intro h
    refine ⟨?_, h⟩
    cases c <;> simp [canonicalSections]

theorem generateNavigation_navEntries (d : PortfolioDocument) (l : List Section)
    (s : DomState) : (generateNavigation d l s).navEntries = navItemsOf l := by
  unfold generateNavigation
  split <;> rfl

theorem navItemsOf_map_id (l : List Section) :
    (navItemsOf l).map NavEntry.id = l.filter (fun c => c ≠ Section.footer) := by
  unfold navItemsOf
  rw [List.map_map]
  exact List.map_id _

theorem hasValid_of_lengthPos (v : JSVal)
    (h : jsGtZero (jsLength v) = true) : hasValidData v = true := by
  cases v with
  | str s =>
      simp only [hasValidData, ne_eq, bne_iff_ne]
      intro hs
      subst hs
      simp [jsGtZero, jsLength, jsToNumber, jsStrToNumber] at h
  | _ => first
      | rfl
      | simp [jsGtZero, jsLength, jsToNumber] at h

/-! ### Claims about the eligibility pass and the navigation -/

/-- C1: ignoring the footer entry and the optional resume entry, the
navigation entries generated from the eligibility pass reference exactly the
eligible section identifiers, in the same relative order as the
eligible-section list. -/
theorem claim_C1 (d : PortfolioDocument) (s : DomState) :
    ((generateNavigation d (processData d) s).navEntries.map NavEntry.id =
      (processData d).filter (fun c => c ≠ Section.footer)) ∧
    (∀ c, c ≠ Section.footer →
      (c ∈ (generateNavigation d (processData d) s).navEntries.map NavEntry.id ↔
        c ∈ processData d)) := by
  rw [generateNavigation_navEntries, navItemsOf_map_id]
  refine ⟨rfl, fun c hc => ?_⟩
  simp [List.mem_filter, hc]

/-- C2 as stated is false: with `personal` absent the other sections are still
eligible on their own, so the eligible-section list need not be empty.
Concretely, a document holding only a non-empty `about` field resolves to the
singleton list about. -/
theorem counterexample_C2 :
    hasValidData (getField [("about", JSVal.str "hi")] "personal") = false ∧
    processData [("about", JSVal.str "hi")] = [Section.about] := by
  decide

/-- C2 amended: when `personal` is absent, null or the empty string, neither
hero nor footer is eligible; the remaining sections are unaffected and keep
their own eligibility. -/
theorem claim_C2_amended (d : PortfolioDocument)
    (h : hasValidData (getField d "personal") = false) :
    Section.hero ∉ processData d ∧ Section.footer ∉ processData d := by
  constructor <;>
    · rw [mem_processData]
      simp [eligibleSection, h]

theorem claim_C2_witness :
    hasValidData (getField [("about", JSVal.str "hi")] "personal") = false ∧
    (Section.hero ∉ processData [("about", JSVal.str "hi")] ∧
     Section.footer ∉ processData [("about", JSVal.str "hi")]) :=
  ⟨by decide, claim_C2_amended _ (by decide)⟩

/-- C3 as stated is false: the eligibility test accepts any value whose
`length` property compares greater than zero, so the non-list string abc makes
the experience section eligible. -/
theorem counterexample_C3 :
    isNonemptyList (JSVal.str "abc") = false ∧
    processData [("experience", JSVal.str "abc")] = [Section.experience] := by
  decide

/-- C3 amended: experience (and likewise projects) is eligible exactly when
the field value has a `length` that compares greater than zero — non-empty
lists qualify, but so do non-empty strings and objects carrying a positive
numeric length; `[]`, null and absent values remain ineligible and a
one-element list remains eligible. -/
theorem claim_C3_amended (d : PortfolioDocument) :
    (Section.experience ∈ processData d ↔
      jsGtZero (jsLength (getField d "experience")) = true) ∧
    (Section.projects ∈ processData d ↔
      jsGtZero (jsLength (getField d "projects")) = true) := by
  constructor <;>
    · rw [mem_processData]
      simp only [eligibleSection, Bool.and_eq_true]
      exact ⟨fun h => h.2, fun h => ⟨hasValid_of_lengthPos _ h, h⟩⟩

/-- C5: the resolver evaluates the six identifiers in the canonical order and
outputs exactly the canonical sequence filtered to the eligible identifiers;
the output is a subsequence of the canonical order without duplicates. -/
theorem claim_C5 (d : PortfolioDocument) :
    processData d = canonicalSections.filter (eligibleSection d) ∧
    (processData d).Sublist canonicalSections ∧
    (processData d).Nodup := by
  refine ⟨processData_eq_filter d, ?_, ?_⟩
  · rw [processData_eq_filter]
    exact List.filter_sublist _
  · rw [processData_eq_filter]
    exact List.Nodup.filter _ (by decide)

/-- C6: footer never appears in the generated navigation list, even when the
footer section is eligible for rendering. -/
theorem claim_C6 (d : PortfolioDocument) (s : DomState) :
    Section.footer ∉
      (generateNavigation d (processData d) s).navEntries.map NavEntry.id := by
  rw [generateNavigation_navEntries, navItemsOf_map_id]
  simp [List.mem_filter]

/-- C10: for the non-list sections the eligibility test is exactly the
three-way null, undefined or empty-string check, so values such as 0, false,
the empty object and the empty array make the section eligible, and every
eligible non-footer section receives a navigation entry. -/
theorem claim_C10 (d : PortfolioDocument) :
    (Section.about ∈ processData d ↔ hasValidData (getField d "about") = true) ∧
    (Section.contact ∈ processData d ↔ hasValidData (getField d "contact") = true) ∧
    (Section.hero ∈ processData d ↔ hasValidData (getField d "personal") = true) ∧
    (Section.footer ∈ processData d ↔ hasValidData (getField d "personal") = true) ∧
    hasValidData (JSVal.num 0) = true ∧
    hasValidData (JSVal.bool false) = true ∧
    hasValidData (JSVal.obj []) = true ∧
    hasValidData (JSVal.arr []) = true ∧
    (∀ c, c ≠ Section.footer → c ∈ processData d →
      { id := c, name := formatNavName c } ∈ navItemsOf (processData d)) := by
  refine ⟨?_, ?_, ?_, ?_, by decide, by decide, by decide, by decide, ?_⟩
  · rw [mem_processData]; rfl
  · rw [mem_processData]; rfl
  · rw [mem_processData]; rfl
  · rw [mem_processData]; rfl
  · intro c hc hmem
    unfold navItemsOf
    exact List.mem_map_of_mem _ (List.mem_filter.2 ⟨hmem, by simp [hc]⟩)

/-! ### Claims about initialization and error handling -/

/-- C9: on a failed fetch, resolution never runs — the section list, the DOM
and the event flag are untouched — and the recovery screen with the manual
retry action is shown. -/
theorem claim_C9 (msg : String) (year : Int) (s : AppState) :
    initModel (FetchOutcome.failure msg) year s =
      { s with errorScreen := some errorStateHTML } ∧
    (initModel (FetchOutcome.failure msg) year s).dom = s.dom ∧
    (initModel (FetchOutcome.failure msg) year s).sections = s.sections ∧
    (initModel (FetchOutcome.failure msg) year s).dataLoadedFired =
      s.dataLoadedFired ∧
    (initModel (FetchOutcome.failure msg) year s).loaded = s.loaded :=
  ⟨rfl, rfl, rfl, rfl, rfl⟩

/-- C4 is violated by the code: an experience item lacking its technologies
list throws while the timeline markup is being built, the throw escapes
`renderSections`, the eligible contact section is left unrendered, navigation
is never generated, the ready event never fires, and the page-level error
screen is shown. -/
theorem claim_C4_bug :
    Section.contact ∈ processData failingDoc ∧
    (initModel (FetchOutcome.success failingDoc) 2025 initialAppState).errorScreen =
      some errorStateHTML ∧
    (initModel (FetchOutcome.success failingDoc) 2025 initialAppState).dataLoadedFired =
      false ∧
    (initModel (FetchOutcome.success failingDoc) 2025 initialAppState).dom.contactTitle =
      "" ∧
    (initModel (FetchOutcome.success failingDoc) 2025 initialAppState).dom.navEntries =
      [] ∧
    (initModel (FetchOutcome.success failingDoc) 2025 initialAppState).dom.aboutDescHTML =
      "<p>Hi</p>" := by
  set_option maxRecDepth 4000 in decide

/-- C7: rendering is idempotent — a state produced by one successful resolve
and render pass of a document is a fixed point of the pass, so running it a
second time yields the same visible-section set, the same rendered content and
the same navigation entries (the resume link included, since the menu markup
is replaced before the link is appended again). -/
theorem claim_C7 (d : PortfolioDocument) (year : Int) (s s₁ : DomState)
    (h : renderSectionsM d year s = Except.ok s₁) :
    renderSectionsM d year s₁ = Except.ok s₁ := by
  obtain ⟨h1, h2⟩ := renderSectionsM_spec d year s s₁ h
  subst h1
  rw [h2 (bigApply d year s), bigApply_idem]

theorem claim_C7_witness :
    renderSectionsM [] 2025 renderedEmpty = Except.ok renderedEmpty :=
  claim_C7 [] 2025 initialDomState renderedEmpty rfl

/-- C8 is violated by the code: the document-supplied skill text is inserted
into the markup verbatim, not in the escaped form the spec requires, so its
tag is interpreted as markup rather than rendered as literal text. -/
theorem claim_C8_bug :
    (initModel (FetchOutcome.success markupDoc) 2025 initialAppState).dom.skillsHTML =
      "<span class=\"skill-tag\"><b>x</b></span>" ∧
    (initModel (FetchOutcome.success markupDoc) 2025 initialAppState).dom.skillsHTML ≠
      "<span class=\"skill-tag\">" ++ escapeHTML "<b>x</b>" ++ "</span>" ∧
    (initModel (FetchOutcome.success markupDoc) 2025 initialAppState).errorScreen =
      none := by
  decide

end Portfolio
